import Mathlib

/-!
Verification of the website-monitor repository's monitoring core against its
specification.  The definitions below are a shallow embedding of the two
monitoring implementations found in the source:

* `MonitoringEngine`  — backend/src/monitoring/MonitoringEngine.ts
* `MonitoringService` — backend/src/services/MonitoringService.ts (part_009)
* `SSLMonitor`        — the SSL monitor module (part_007)

Times are modelled as milliseconds since the epoch (`Int`), machine numbers as
`Nat`/`Int`, JavaScript `null`/`undefined` as `Option`, and the database rows
touched by the alert engine as explicit lists threaded through the functions.
-/

namespace WebsiteMonitor

/-- The three-valued check status `'up' | 'down' | 'degraded'` used by both
implementations. -/
inductive Status where
  | up
  | down
  | degraded
deriving DecidableEq, Repr

/-- JavaScript `a || b || ... || dflt` over possibly-absent strings: the first
string that is present and non-empty (JS truthiness), else the default. -/
def firstTruthy (xs : List (Option String)) (dflt : String) : String :=
  match xs with
  | [] => dflt
  | none :: rest => firstTruthy rest dflt
  | some s :: rest => if s = "" then firstTruthy rest dflt else s

/-- Does `pat` occur as a contiguous run inside `hay`? -/
def hasSubstring : List Char → List Char → Bool
  | [], pat => pat.isEmpty
  | hay@(_ :: rest), pat => pat.isPrefixOf hay || hasSubstring rest pat

/-- JavaScript `s.includes(pat)`. -/
def strContains (s pat : String) : Bool :=
  hasSubstring s.data pat.data

/-- JavaScript `s.toLowerCase()` on the ASCII strings the source compares. -/
def jsToLower (s : String) : String :=
  ⟨s.data.map Char.toLower⟩

/-- JavaScript `Math.ceil(a / b)` for integer `a` and positive integer `b`
(used by MonitoringService.checkSSL on millisecond differences). -/
def jsCeilDiv (a b : Int) : Int :=
  -((-a).fdiv b)

/-- Number of milliseconds in one day, the divisor both SSL implementations
use (`1000 * 60 * 60 * 24`). -/
def msPerDay : Int := 86400000

/-- A TLS peer certificate as the two SSL implementations read it.  Fields the
source accesses on the Node certificate object; absent properties are `none`,
dates are milliseconds since the epoch. -/
structure Certificate where
  valid_from : Int
  valid_to : Int
  hasIssuer : Bool
  issuerCN : Option String
  issuerCommonName : Option String
  issuerO : Option String
  issuerOrganizationName : Option String
  subjectCN : Option String
  subjectCommonName : Option String
  selfSignedFlag : Option Bool
  signatureAlgorithm : Option String
  sigalg : Option String
  pubkeyType : Option String
  pubkeySize : Option Nat
deriving DecidableEq, Repr

namespace SSLMonitor

/-- `SSLResult` of the SSL monitor module (part_007): nullable columns are
`Option`. -/
structure SSLResult where
  websiteId : Nat
  certificateValid : Bool
  expiresAt : Option Int
  daysUntilExpiry : Option Int
  issuer : Option String
  securityGrade : String
  certificateChainValid : Bool
deriving DecidableEq, Repr

/-- `SSLMonitor.isSelfSignedCertificate`: issuer CN equals subject CN (both
present and non-empty), else the explicit `selfSigned` flag when present,
else false. -/
def isSelfSignedCertificate (c : Certificate) : Bool :=
  let issuerCN := firstTruthy [c.issuerCN, c.issuerCommonName] ""
  let subjectCN := firstTruthy [c.subjectCN, c.subjectCommonName] ""
  if issuerCN ≠ "" ∧ subjectCN ≠ "" ∧ issuerCN = subjectCN then true
  else
    match c.selfSignedFlag with
    | some b => b
    | none => false

/-- The signature algorithm string the grader inspects:
`certificate.signatureAlgorithm` lower-cased, else `certificate.sigalg`
lower-cased, else the empty string. -/
def sigAlgString (c : Certificate) : String :=
  jsToLower (firstTruthy [c.signatureAlgorithm, c.sigalg] "")

/-- The running score of `SSLMonitor.calculateSecurityGrade`: start at 100 and
apply the source's sequence of guarded deductions. -/
def securityScore (c : Certificate) (daysUntilExpiry : Int) : Int :=
  let score : Int := 100
  let score := if isSelfSignedCertificate c then score - 50 else score
  let score := if daysUntilExpiry < 0 then score - 40 else score
  let score := if daysUntilExpiry < 30 ∧ 0 ≤ daysUntilExpiry then score - 20 else score
  let score := if daysUntilExpiry < 7 ∧ 0 ≤ daysUntilExpiry then score - 30 else score
  let sigAlg := sigAlgString c
  let score := if strContains sigAlg "sha1" then score - 30 else score
  let score := if strContains sigAlg "md5" then score - 50 else score
  score

/-- The score-to-letter mapping closing `calculateSecurityGrade`. -/
def gradeLetter (score : Int) : String :=
  if score ≥ 90 then "A+"
  else if score ≥ 80 then "A"
  else if score ≥ 70 then "B"
  else if score ≥ 60 then "C"
  else if score ≥ 50 then "D"
  else "F"

/-- `SSLMonitor.calculateSecurityGrade`. -/
def calculateSecurityGrade (c : Certificate) (daysUntilExpiry : Int) : String :=
  gradeLetter (securityScore c daysUntilExpiry)

/-- `SSLMonitor.analyzeCertificate` at wall-clock time `now`. -/
def analyzeCertificate (websiteId : Nat) (c : Certificate) (now : Int) : SSLResult :=
  let expiresAt := c.valid_to
  let daysUntilExpiry := (expiresAt - now).fdiv msPerDay
  let issuerMatch :=
    if c.hasIssuer then
      firstTruthy [c.issuerO, c.issuerCN, c.issuerOrganizationName] "Unknown"
    else "Unknown"
  let securityGrade := calculateSecurityGrade c daysUntilExpiry
  let validFrom := c.valid_from
  let isSelfSigned := isSelfSignedCertificate c
  let certificateValid := (validFrom ≤ now ∧ now ≤ expiresAt) ∧ ¬ isSelfSigned
  let certificateChainValid := ¬ isSelfSigned ∧ certificateValid
  { websiteId
    certificateValid
    expiresAt := some expiresAt
    daysUntilExpiry := some daysUntilExpiry
    issuer := some issuerMatch
    securityGrade
    certificateChainValid := certificateChainValid }

/-- `SSLMonitor.createInvalidResult`: the explicit invalid record (the reason
string is ignored by the source as well). -/
def createInvalidResult (websiteId : Nat) (_reason : String) : SSLResult :=
  { websiteId
    certificateValid := false
    expiresAt := none
    daysUntilExpiry := none
    issuer := none
    securityGrade := "F"
    certificateChainValid := false }

/-- Outcome of `getCertificate`: the retrieved leaf certificate, or the
rejection raised on a socket error / 30-second timeout. -/
inductive HandshakeResult where
  | cert (c : Certificate)
  | failure (msg : String)
deriving DecidableEq, Repr

/-- `SSLMonitor.checkSSL`.  The second component records whether
`saveSSLResult` was called on the returned result: the non-HTTPS early return
does not persist, the analysis path and the catch path do. -/
def checkSSL (websiteId : Nat) (isHttps : Bool) (handshake : HandshakeResult)
    (now : Int) : SSLResult × Bool :=
  if !isHttps then (createInvalidResult websiteId "Non-HTTPS URL", false)
  else
    match handshake with
    | .cert c => (analyzeCertificate websiteId c now, true)
    | .failure _ => (createInvalidResult websiteId "SSL check failed", true)

end SSLMonitor

/-- Modelled from the claim's words: the reference deduction total for a
certificate descriptor `(selfSigned, daysUntilExpiry, signature algorithm)` —
50 for self-signed, 40 for expired, 20 for expiring within 30 days, an
additional 30 for expiring within 7 days, 30 for a "sha1" algorithm, 50 for
"md5" (the expiring deductions applying to not-yet-expired certificates). -/
def specDeductions (selfSigned : Bool) (days : Int) (sigAlg : String) : Int :=
  (if selfSigned then 50 else 0)
    + (if days < 0 then 40 else 0)
    + (if days < 30 ∧ 0 ≤ days then 20 else 0)
    + (if days < 7 ∧ 0 ≤ days then 30 else 0)
    + (if strContains sigAlg "sha1" then 30 else 0)
    + (if strContains sigAlg "md5" then 50 else 0)

/-- Modelled from the claim's words: the reference security grade, a pure
function of exactly `(selfSigned, daysUntilExpiry, signature algorithm)` —
100 minus the deductions, mapped to a letter by the claim's thresholds. -/
def specSecurityGrade (selfSigned : Bool) (days : Int) (sigAlg : String) : String :=
  SSLMonitor.gradeLetter (100 - specDeductions selfSigned days sigAlg)

/-- The wire-level outcome of one HTTP GET: a response with its final status
code, or a network/abort error carrying a message. -/
inductive WireResult where
  | response (code : Nat)
  | netError (msg : String)
deriving DecidableEq, Repr

/-- A row of `alert_history` as the alert engines read and write it:
`(website_id, alert_type, sent_at)` in milliseconds. -/
abbrev AlertHistory := List (Nat × String × Int)

/-- Number of `alert_history` rows for the pair `(websiteId, alertType)`. -/
def alertCount (h : AlertHistory) (websiteId : Nat) (alertType : String) : Nat :=
  h.countP fun e => decide (e.1 = websiteId ∧ e.2.1 = alertType)

/-- The 15-minute suppression window in milliseconds. -/
def suppressionWindowMs : Int := 900000

namespace MonitoringService

/-- `SSLInfo` of MonitoringService (part_009); `expiryDate` in milliseconds. -/
structure SSLInfo where
  valid : Bool
  expiryDate : Int
  daysUntilExpiry : Int
  issuer : String
  grade : String
  chainValid : Bool
deriving DecidableEq, Repr

/-- `PerformanceMetrics` of MonitoringService (part_009). -/
structure PerformanceMetrics where
  firstByteTime : Nat
  domLoadTime : Nat
  fullLoadTime : Nat
  resourceCount : Nat
  pageSize : Nat
deriving DecidableEq, Repr

/-- The value `MonitoringService.checkUptime` resolves with. -/
structure UptimeOutcome where
  status : Status
  responseTime : Nat
  httpStatusCode : Option Nat
  errorMessage : Option String
deriving DecidableEq, Repr

/-- `MonitoringService.checkUptime` on a wire outcome observed after `elapsed`
milliseconds.  axios is called with `validateStatus: status < 500`, so a 5xx
response rejects and lands in the catch branch together with network errors;
a resolved response is mapped 2xx to up (degraded when over 5 seconds),
4xx to degraded, anything else to down. -/
def checkUptime (wire : WireResult) (elapsed : Nat) : UptimeOutcome :=
  match wire with
  | .netError msg =>
      { status := .down, responseTime := elapsed
        httpStatusCode := none, errorMessage := some msg }
  | .response code =>
      if 500 ≤ code then
        { status := .down, responseTime := elapsed
          httpStatusCode := none
          errorMessage := some ("Request failed with status code " ++ toString code) }
      else
        let status :=
          if 200 ≤ code ∧ code < 300 then
            (if elapsed > 5000 then Status.degraded else Status.up)
          else if 400 ≤ code ∧ code < 500 then Status.degraded
          else Status.down
        { status, responseTime := elapsed
          httpStatusCode := some code, errorMessage := none }

/-- `MonitoringService.calculateSSLGrade`: grades by chain validity and the
public key's type and size (`cert.pubkey?.asymmetricKeyType` and `asymmetricKeySize`). -/
def calculateSSLGrade (c : Certificate) (chainValid : Bool) : String :=
  if !chainValid then "F"
  else
    let keySize := c.pubkeySize.getD 0
    let algorithm := c.pubkeyType.getD ""
    if algorithm = "ec" ∧ keySize ≥ 256 then "A+"
    else if algorithm = "rsa" ∧ keySize ≥ 2048 then "A"
    else if keySize ≥ 1024 then "B"
    else "C"

/-- The `SSLInfo` that `MonitoringService.checkSSL` builds from the peer
certificate once the TLS socket connects (`chainValid` is
`socket.authorized`); `daysUntilExpiry` uses `Math.ceil`. -/
def checkSSLInfo (c : Certificate) (chainValid : Bool) (now : Int) : SSLInfo :=
  let validFrom := c.valid_from
  let validTo := c.valid_to
  { valid := (validFrom ≤ now ∧ now ≤ validTo) ∧ chainValid
    expiryDate := validTo
    daysUntilExpiry := jsCeilDiv (validTo - now) msPerDay
    issuer := firstTruthy [c.issuerCN, c.issuerO] "Unknown"
    grade := calculateSSLGrade c chainValid
    chainValid := chainValid }

/-- `MonitorResult` of MonitoringService (part_009): the merged result of one
tick; timestamp in milliseconds. -/
structure MonitorResult where
  websiteId : Nat
  timestamp : Int
  status : Status
  responseTime : Nat
  httpStatusCode : Option Nat
  errorMessage : Option String
  sslInfo : Option SSLInfo
  performanceMetrics : Option PerformanceMetrics
deriving DecidableEq, Repr

/-- The merge step of `MonitoringService.performWebsiteCheck`: the three
checks run via `Promise.allSettled`, a rejected check contributes `null`, and
the merged result reads status, response time, status code and error from the
uptime outcome (`uptime?.status || 'down'`, `uptime?.responseTime || 0`). -/
def performWebsiteCheck (websiteId : Nat) (now : Int)
    (uptime : Option UptimeOutcome) (ssl : Option SSLInfo)
    (perf : Option PerformanceMetrics) : MonitorResult :=
  { websiteId
    timestamp := now
    status := (uptime.map (·.status)).getD .down
    responseTime := (uptime.map (·.responseTime)).getD 0
    httpStatusCode := uptime.bind (·.httpStatusCode)
    errorMessage := uptime.bind (·.errorMessage)
    sslInfo := ssl
    performanceMetrics := perf }

/-- JavaScript `Math.round(5000 / responseTime * 100)` for a positive integer
response time: round-half-up of `500000 / responseTime`.  The expression is
not integer-valued at `responseTime = 0` (JS Infinity); no theorem evaluates
it there. -/
def ratioPerformanceScore (responseTime : Nat) : Int :=
  if responseTime = 0 then 0
  else Int.ofNat ((1000000 + responseTime) / (2 * responseTime))

/-- The `performance_score` column written by
`MonitoringService.saveMonitorResult`:
`result.performanceMetrics ? Math.round(5000 / result.responseTime * 100) : null`. -/
def saveMonitorResultScore (r : MonitorResult) : Option Int :=
  match r.performanceMetrics with
  | some _ => some (ratioPerformanceScore r.responseTime)
  | none => none

/-- The alert types `MonitoringService.checkAlerts` triggers for a merged
result, in source order: status_change on down or slow-degraded, ssl_expiry
when TLS info is present with at most 30 days left, performance above
15000 ms regardless of status. -/
def checkAlertTypes (r : MonitorResult) : List String :=
  (if r.status = .down ∨ (r.status = .degraded ∧ r.responseTime > 10000)
    then ["status_change"] else [])
  ++ (match r.sslInfo with
      | some s => if s.daysUntilExpiry ≤ 30 then ["ssl_expiry"] else []
      | none => [])
  ++ (if r.responseTime > 15000 then ["performance"] else [])

/-- `MonitoringService.triggerAlert`: inserts a row into `alert_history`
unconditionally — no suppression query precedes the insert. -/
def triggerAlert (h : AlertHistory) (websiteId : Nat) (alertType : String)
    (now : Int) : AlertHistory :=
  h ++ [(websiteId, alertType, now)]

/-- `MonitoringService.checkAlerts` acting on the `alert_history` table:
one `triggerAlert` insert per satisfied rule. -/
def checkAlerts (h : AlertHistory) (websiteId : Nat) (r : MonitorResult)
    (now : Int) : AlertHistory :=
  (checkAlertTypes r).foldl (fun acc ty => triggerAlert acc websiteId ty now) h

/-- The per-website check interval in minutes that `startMonitoring` derives
from the configured seconds: `Math.round((row.check_interval || 300) / 60)`
(a falsy 0 falls back to the 300-second default). -/
def checkIntervalMinutes (checkIntervalSeconds : Nat) : Nat :=
  let s := if checkIntervalSeconds = 0 then 300 else checkIntervalSeconds
  (2 * s + 60) / 120

/-- The `setInterval` period of `startWebsiteMonitoring` in milliseconds:
`website.checkInterval * 60 * 1000`. -/
def intervalMs (checkIntervalSeconds : Nat) : Nat :=
  checkIntervalMinutes checkIntervalSeconds * 60 * 1000

/-- Under `setInterval`, the next tick starts one period after the previous
tick STARTED (not after it completed). -/
def nextCheckStart (prevStart : Int) (checkIntervalSeconds : Nat) : Int :=
  prevStart + intervalMs checkIntervalSeconds

end MonitoringService

namespace MonitoringEngine

/-- `MonitorResult` of MonitoringEngine. -/
structure MonitorResult where
  websiteId : Nat
  status : Status
  responseTime : Nat
  statusCode : Option Nat
  errorMessage : Option String
  performanceScore : Option Int
deriving DecidableEq, Repr

/-- `MonitoringEngine.calculatePerformanceScore`: 5xx scores 0, 4xx scores 25,
otherwise the response-time band decides. -/
def calculatePerformanceScore (responseTime : Nat) (statusCode : Nat) : Int :=
  if statusCode ≥ 500 then 0
  else if statusCode ≥ 400 then 25
  else if responseTime < 200 then 100
  else if responseTime < 500 then 90
  else if responseTime < 1000 then 80
  else if responseTime < 2000 then 70
  else if responseTime < 3000 then 60
  else if responseTime < 5000 then 50
  else 30

/-- `MonitoringEngine.performCheck` on a wire outcome observed after `elapsed`
milliseconds.  `fetch` resolves for every HTTP status; `response.ok`
(2xx) maps to up, 5xx to down, any other resolved status to degraded, and a
network/abort error is caught as down. -/
def performCheck (websiteId : Nat) (wire : WireResult) (elapsed : Nat) :
    MonitorResult :=
  match wire with
  | .netError msg =>
      { websiteId, status := .down, responseTime := elapsed
        statusCode := none, errorMessage := some msg, performanceScore := none }
  | .response code =>
      let status :=
        if 200 ≤ code ∧ code ≤ 299 then Status.up
        else if 500 ≤ code then Status.down
        else Status.degraded
      { websiteId, status, responseTime := elapsed
        statusCode := some code, errorMessage := none
        performanceScore := some (calculatePerformanceScore elapsed code) }

/-- The suppression query of `MonitoringEngine.checkAlerts`: is there a row
for `(websiteId, alertType)` with `sent_at > NOW() - INTERVAL '15 minutes'`? -/
def hasRecentAlert (h : AlertHistory) (websiteId : Nat) (alertType : String)
    (now : Int) : Bool :=
  h.any fun e =>
    decide (e.1 = websiteId ∧ e.2.1 = alertType ∧ now - suppressionWindowMs < e.2.2)

/-- `MonitoringEngine.checkAlerts` acting on the `alert_history` table:
returns immediately when the status is up, otherwise walks the enabled alert
configs and, for each config type with no recent row, lets `sendAlert` insert
a fresh row. -/
def checkAlerts (enabledConfigTypes : List String) (h : AlertHistory)
    (r : MonitorResult) (now : Int) : AlertHistory :=
  if r.status = .up then h
  else
    enabledConfigTypes.foldl
      (fun acc ty =>
        if hasRecentAlert acc r.websiteId ty now then acc
        else acc ++ [(r.websiteId, ty, now)])
      h

/-- The re-arming step at the end of `checkWebsite`: after a tick completes,
`setTimeout(checkWebsite, config.check_interval * 1000)` schedules the next
start exactly `checkInterval` seconds later. -/
def nextCheckStart (completionTime : Int) (checkIntervalSeconds : Nat) : Int :=
  completionTime + checkIntervalSeconds * 1000

/-- A deterministic fake-clock trace of `checkWebsite` ticks: given the first
start time and each tick's duration, the list of (start, completion) pairs,
each next start re-armed `checkInterval` seconds after the completion. -/
def runTicks (start : Int) (checkIntervalSeconds : Nat) :
    List Nat → List (Int × Int)
  | [] => []
  | d :: ds =>
      (start, start + d)
        :: runTicks (nextCheckStart (start + d) checkIntervalSeconds)
            checkIntervalSeconds ds

end MonitoringEngine

namespace EngineSched

/-- The interleaved state of `MonitoringEngine.scheduleMonitoring`'s timer
machinery while the engine is running.  `timerOf` is the `activeChecks` map
(websiteId to the timer handle last stored for it — entries are overwritten,
never deleted when a timer fires); `liveTimers` are the armed `setTimeout`
handles that have neither fired nor been cancelled, tagged with the target
they will check; `inFlight` are the targets with a `checkWebsite` invocation
between its entry and its re-arm (the awaited tick); `nextTimerId` supplies
fresh handles. -/
structure State where
  timerOf : List (Nat × Nat)
  liveTimers : List (Nat × Nat)
  inFlight : List Nat
  nextTimerId : Nat
deriving DecidableEq, Repr

/-- The engine starts with an empty map, no timers and no ticks. -/
def initState : State := { timerOf := [], liveTimers := [], inFlight := [], nextTimerId := 0 }

/-- `activeChecks.get(w)` (with `has` as the guard). -/
def lookupTimer (m : List (Nat × Nat)) (w : Nat) : Option Nat :=
  (m.find? fun e => e.1 = w).map (·.2)

/-- `activeChecks.set(w, t)`: overwrite the entry for `w`. -/
def setTimer (m : List (Nat × Nat)) (w t : Nat) : List (Nat × Nat) :=
  (w, t) :: (m.filter fun e => e.1 ≠ w)

/-- The atomic events of the running engine:
`register w` is a `scheduleMonitoring` call for target `w` (registry refresh
or start); `fire t` is the `setTimeout` callback of handle `t` running;
`complete w` is an in-flight tick for `w` reaching its re-arm line. -/
inductive Event where
  | register (w : Nat)
  | fire (t : Nat)
  | complete (w : Nat)
deriving DecidableEq, Repr

/-- One event.  `register`: `clearTimeout` the map-held handle — which
cancels it only if it is still pending, and is a no-op once it has fired —
then `checkWebsite()` starts a tick (the map entry itself is not deleted).
`fire`: a pending handle fires, leaves `liveTimers`, and starts a tick for
its target.  `complete`: the tick's awaits finish and the re-arm runs —
`setTimeout` arms a fresh handle and `activeChecks.set` records it.  An event
whose precondition fails (firing a non-pending handle, completing with no
tick in flight) changes nothing. -/
def step (s : State) : Event → State
  | .register w =>
      let live :=
        match lookupTimer s.timerOf w with
        | some t => s.liveTimers.filter fun e => e.1 ≠ t
        | none => s.liveTimers
      { s with liveTimers := live, inFlight := w :: s.inFlight }
  | .fire t =>
      match s.liveTimers.find? fun e => e.1 = t with
      | some e =>
          { s with liveTimers := s.liveTimers.filter fun e2 => e2.1 ≠ t
                   inFlight := e.2 :: s.inFlight }
      | none => s
  | .complete w =>
      if w ∈ s.inFlight then
        { timerOf := setTimer s.timerOf w s.nextTimerId
          liveTimers := (s.nextTimerId, w) :: s.liveTimers
          inFlight := s.inFlight.erase w
          nextTimerId := s.nextTimerId + 1 }
      else s

/-- A whole schedule of events from a starting state. -/
def run (s : State) (evs : List Event) : State :=
  evs.foldl step s

/-- Number of live (armed, unfired, uncancelled) timers for target `w`. -/
def activeTimerCount (s : State) (w : Nat) : Nat :=
  s.liveTimers.countP fun e => decide (e.2 = w)

/-- Number of self-re-arming chains for target `w`: its in-flight ticks plus
its live timers (each chain is always in exactly one of the two phases). -/
def chains (s : State) (w : Nat) : Nat :=
  s.inFlight.count w + activeTimerCount s w

/-- How many times a schedule registers target `w`. -/
def registersFor (w : Nat) (evs : List Event) : Nat :=
  evs.count (.register w)

end EngineSched

/-! ## Concrete inputs used by the claim theorems -/

/-- A CA-signed, SHA-256, RSA-2048 certificate whose `notAfter` lies exactly
10 days in the past relative to `now = 0`. -/
def expiredCert : Certificate :=
  { valid_from := -8640000000, valid_to := -864000000, hasIssuer := true
    issuerCN := some "GoodCA", issuerCommonName := none
    issuerO := some "GoodCA Org", issuerOrganizationName := none
    subjectCN := some "expired.example", subjectCommonName := none
    selfSignedFlag := none
    signatureAlgorithm := some "sha256WithRSAEncryption", sigalg := none
    pubkeyType := some "rsa", pubkeySize := some 2048 }

/-- A certificate whose `notAfter` lies 10.5 days in the past relative to
`now = 0` (907200000 ms = 10 days and 12 hours). -/
def halfDayExpiredCert : Certificate :=
  { valid_from := -8640000000, valid_to := -907200000, hasIssuer := true
    issuerCN := some "GoodCA", issuerCommonName := none
    issuerO := some "GoodCA Org", issuerOrganizationName := none
    subjectCN := some "late.example", subjectCommonName := none
    selfSignedFlag := none
    signatureAlgorithm := some "sha256WithRSAEncryption", sigalg := none
    pubkeyType := some "rsa", pubkeySize := some 2048 }

/-- A self-signed (issuer CN = subject CN) SHA-256 RSA-2048 certificate
expiring 100 days after `now = 0`. -/
def selfSignedRsaCert : Certificate :=
  { valid_from := 0, valid_to := 8640000000, hasIssuer := true
    issuerCN := some "self.example", issuerCommonName := none
    issuerO := none, issuerOrganizationName := none
    subjectCN := some "self.example", subjectCommonName := none
    selfSignedFlag := none
    signatureAlgorithm := some "sha256WithRSAEncryption", sigalg := none
    pubkeyType := some "rsa", pubkeySize := some 2048 }

/-! ## C10: SSLMonitor.checkSSL is total and returns an explicit invalid
result on non-HTTPS URLs and handshake failures -/

/-- Claim C10 (counterexample): the claim says a non-HTTPS target gets a
STORED grade-F record, but `SSLMonitor.checkSSL` returns the invalid result
from its non-HTTPS early return without calling `saveSSLResult`, so nothing
is persisted there. -/
theorem c10_counterexample_nonhttps_not_persisted :
    (SSLMonitor.checkSSL 7 false (.failure "boom") 0).2 = false := by
  rfl

/-- Claim C10 (amended): `SSLMonitor.checkSSL` is total and, for a non-HTTPS
URL or a failed TLS handshake, returns the explicit invalid `SSLResult`
(certificateValid = false, certificateChainValid = false, securityGrade = F,
expiresAt, daysUntilExpiry and issuer all null); the handshake-failure path
persists that record via `saveSSLResult`, while the non-HTTPS early return
yields it WITHOUT persisting. -/
theorem c10_invalid_result_shape :
    (∀ wid hs now, SSLMonitor.checkSSL wid false hs now
        = (SSLMonitor.createInvalidResult wid "Non-HTTPS URL", false))
    ∧ (∀ wid msg now, SSLMonitor.checkSSL wid true (.failure msg) now
        = (SSLMonitor.createInvalidResult wid "SSL check failed", true))
    ∧ (∀ wid reason,
        (SSLMonitor.createInvalidResult wid reason).certificateValid = false
        ∧ (SSLMonitor.createInvalidResult wid reason).certificateChainValid = false
        ∧ (SSLMonitor.createInvalidResult wid reason).securityGrade = "F"
        ∧ (SSLMonitor.createInvalidResult wid reason).expiresAt = none
        ∧ (SSLMonitor.createInvalidResult wid reason).daysUntilExpiry = none
        ∧ (SSLMonitor.createInvalidResult wid reason).issuer = none) :=
  ⟨fun _ _ _ => rfl, fun _ _ _ => rfl,
    fun _ _ => ⟨rfl, rfl, rfl, rfl, rfl, rfl⟩⟩

/-! ## C7: daysUntilExpiry as floor((notAfter - now) / 1 day) -/

/-- Claim C7 (counterexample): `MonitoringService.checkSSL` computes
`Math.ceil`, not floor.  For a certificate whose `notAfter` lies 10.5 days in
the past, it yields -10 while the claimed floor formula yields -11. -/
theorem c7_counterexample_service_uses_ceil :
    (MonitoringService.checkSSLInfo halfDayExpiredCert false 0).daysUntilExpiry = -10
    ∧ (halfDayExpiredCert.valid_to - 0).fdiv msPerDay = -11
    ∧ ((-10 : Int) ≠ -11) := by
  refine ⟨rfl, by decide, by decide⟩

/-- Claim C7 (amended): `SSLMonitor.analyzeCertificate` computes
`daysUntilExpiry = floor((notAfter - now) / 1 day)` in exact integer
arithmetic (possibly negative), and on a certificate expired exactly 10 days
ago it yields -10 with certificateValid = false; `MonitoringService.checkSSL`
instead computes `Math.ceil` of the same quotient, which agrees with floor
only when `notAfter - now` is an exact multiple of one day. -/
theorem c7_floor_days_and_expired_scenario :
    (∀ wid c now, (SSLMonitor.analyzeCertificate wid c now).daysUntilExpiry
        = some ((c.valid_to - now).fdiv msPerDay))
    ∧ (SSLMonitor.analyzeCertificate 1 expiredCert 0).daysUntilExpiry = some (-10)
    ∧ (SSLMonitor.analyzeCertificate 1 expiredCert 0).certificateValid = false :=
  ⟨fun _ _ _ => rfl, by decide, by decide⟩

/-! ## C2: the security grade versus the reference deduction function -/

/-- Claim C2 (counterexample): `MonitoringService.calculateSSLGrade` is not
the reference deduction function — on a chain-trusted self-signed RSA-2048
certificate with 100 days left and a SHA-256 signature it grades A (by key
type and size), while the reference deduction function on the same
descriptor (self-signed, 100 days, sha256) gives D. -/
theorem c2_counterexample_service_grade :
    (MonitoringService.checkSSLInfo selfSignedRsaCert true 0).grade = "A"
    ∧ (MonitoringService.checkSSLInfo selfSignedRsaCert true 0).daysUntilExpiry = 100
    ∧ SSLMonitor.isSelfSignedCertificate selfSignedRsaCert = true
    ∧ specSecurityGrade (SSLMonitor.isSelfSignedCertificate selfSignedRsaCert) 100
        (SSLMonitor.sigAlgString selfSignedRsaCert) = "D"
    ∧ ("A" : String) ≠ "D" := by
  refine ⟨rfl, by decide, by decide, by decide, by decide⟩

/-- Claim C2 (amended): `SSLMonitor.calculateSecurityGrade` equals the
reference 100-point deduction function and is a pure function of exactly
(self-signed, days-until-expiry, signature algorithm), with the "expiring
soon" deductions applying to not-yet-expired certificates;
`MonitoringService.calculateSSLGrade` does not follow that scale (it grades
by chain validity and public-key type/size). -/
theorem c2_code_grade_is_spec_deduction_grade :
    ∀ (c : Certificate) (days : Int),
      SSLMonitor.calculateSecurityGrade c days
        = specSecurityGrade (SSLMonitor.isSelfSignedCertificate c) days
            (SSLMonitor.sigAlgString c) := by
  intro c days
  unfold SSLMonitor.calculateSecurityGrade specSecurityGrade
  congr 1
  unfold SSLMonitor.securityScore specDeductions
  dsimp only
  split_ifs <;> omega

/-! ## C9: the persisted performance score -/

/-- A merged tick of MonitoringService for a fast, successful check: HTTP
200 in 100 ms, no TLS info, performance metrics present. -/
def fastTickResult : MonitoringService.MonitorResult :=
  MonitoringService.performWebsiteCheck 1 0
    (some { status := .up, responseTime := 100, httpStatusCode := some 200
            errorMessage := none })
    none
    (some { firstByteTime := 100, domLoadTime := 100, fullLoadTime := 100
            resourceCount := 1, pageSize := 1234 })

/-- Claim C9 (counterexample): `MonitoringService.saveMonitorResult` persists
`Math.round(5000 / responseTime * 100)`: for a 100 ms HTTP-200 tick it stores
5000, not the banded table value 100, and 5000 exceeds the claimed [0, 100]
bound. -/
theorem c9_counterexample_service_ratio_score :
    MonitoringService.saveMonitorResultScore fastTickResult = some 5000
    ∧ MonitoringEngine.calculatePerformanceScore 100 200 = 100
    ∧ ((5000 : Int) ≠ 100) ∧ ¬ ((5000 : Int) ≤ 100) := by
  refine ⟨by decide, by decide, by decide, by decide⟩

set_option maxHeartbeats 1000000 in
/-- Claim C9 (amended): `MonitoringEngine.calculatePerformanceScore` is the
banded table value (5xx scores 0, 4xx scores 25, then by response time), it
always lies in [0, 100], it is monotone non-increasing in response time for a
fixed status code, and `MonitoringEngine.performCheck` attaches exactly it to
every resolved response; `MonitoringService.saveMonitorResult`, however,
persists the unbounded ratio `Math.round(5000 / responseTime * 100)`. -/
theorem c9_engine_banded_score :
    (∀ rt code, 0 ≤ MonitoringEngine.calculatePerformanceScore rt code
        ∧ MonitoringEngine.calculatePerformanceScore rt code ≤ 100)
    ∧ (∀ code rt₁ rt₂, rt₁ ≤ rt₂ →
        MonitoringEngine.calculatePerformanceScore rt₂ code
          ≤ MonitoringEngine.calculatePerformanceScore rt₁ code)
    ∧ (∀ wid code elapsed,
        (MonitoringEngine.performCheck wid (.response code) elapsed).performanceScore
          = some (MonitoringEngine.calculatePerformanceScore elapsed code)) := by
  refine ⟨?_, ?_, ?_⟩
  · intro rt code
    unfold MonitoringEngine.calculatePerformanceScore
    split_ifs <;> omega
  · intro code rt₁ rt₂ h
    unfold MonitoringEngine.calculatePerformanceScore
    split_ifs <;> omega
  · intro wid code elapsed
    rfl

/-- Claim C9 (witness): the monotonicity conjunct at response times
300 ≤ 2500 for status code 200. -/
theorem c9_engine_banded_score_witness :
    (300 : Nat) ≤ 2500
    ∧ MonitoringEngine.calculatePerformanceScore 2500 200
        ≤ MonitoringEngine.calculatePerformanceScore 300 200 :=
  ⟨by decide, c9_engine_banded_score.2.1 200 300 2500 (by decide)⟩

/-! ## C4: a failed TLS or performance check does not change the merged
status when the uptime check succeeds -/

/-- Claim C4 (confirmed): when the uptime check fulfils, the merged result of
`MonitoringService.performWebsiteCheck` takes status, response time, status
code and error message from the uptime outcome; a rejected TLS check only
makes the TLS summary absent, a rejected performance check only makes the
persisted performance score null, and the status is independent of both. -/
theorem c4_uptime_drives_merged_result :
    ∀ (wid : Nat) (now : Int) (u : MonitoringService.UptimeOutcome)
      (ssl : Option MonitoringService.SSLInfo)
      (perf : Option MonitoringService.PerformanceMetrics),
      (MonitoringService.performWebsiteCheck wid now (some u) ssl perf).status
          = u.status
      ∧ (MonitoringService.performWebsiteCheck wid now (some u) ssl perf).responseTime
          = u.responseTime
      ∧ (MonitoringService.performWebsiteCheck wid now (some u) ssl perf).httpStatusCode
          = u.httpStatusCode
      ∧ (MonitoringService.performWebsiteCheck wid now (some u) ssl perf).errorMessage
          = u.errorMessage
      ∧ (MonitoringService.performWebsiteCheck wid now (some u) ssl perf).sslInfo
          = ssl
      ∧ (ssl = none →
          (MonitoringService.performWebsiteCheck wid now (some u) ssl perf).sslInfo
            = none)
      ∧ (perf = none →
          MonitoringService.saveMonitorResultScore
            (MonitoringService.performWebsiteCheck wid now (some u) ssl perf)
            = none)
      ∧ (∀ ssl₂ perf₂,
          (MonitoringService.performWebsiteCheck wid now (some u) ssl₂ perf₂).status
            = (MonitoringService.performWebsiteCheck wid now (some u) ssl perf).status) := by
  intro wid now u ssl perf
  refine ⟨rfl, rfl, rfl, rfl, rfl, fun h => by subst h; rfl, ?_, fun _ _ => rfl⟩
  intro h
  subst h
  rfl

/-- Claim C4 (witness): the merge at a concrete successful uptime outcome
with both other checks failed. -/
theorem c4_uptime_drives_merged_result_witness :
    (MonitoringService.performWebsiteCheck 1 0
        (some { status := .up, responseTime := 123, httpStatusCode := some 200
                errorMessage := none }) none none).status = .up
    ∧ MonitoringService.saveMonitorResultScore
        (MonitoringService.performWebsiteCheck 1 0
          (some { status := .up, responseTime := 123, httpStatusCode := some 200
                  errorMessage := none }) none none) = none := by
  have h := c4_uptime_drives_merged_result 1 0
    { status := .up, responseTime := 123, httpStatusCode := some 200
      errorMessage := none } none none
  exact ⟨h.1, h.2.2.2.2.2.2.1 rfl⟩

/-! ## C3: status derivation of the uptime check -/

/-- Claim C3 (counterexample): `MonitoringEngine.performCheck` has no
slow-response rule — a 2xx response observed after 6000 ms (over the claimed
5000 ms threshold) still yields up, where the claim requires degraded. -/
theorem c3_counterexample_engine_slow_2xx_up :
    (MonitoringEngine.performCheck 1 (.response 200) 6000).status = .up
    ∧ (6000 : Nat) > 5000
    ∧ Status.up ≠ .degraded := by
  refine ⟨rfl, by decide, by decide⟩

/-- Claim C3 (amended): `MonitoringService.checkUptime` follows the claimed
mapping exactly — network errors yield down, 2xx yields up unless the
elapsed time exceeds 5000 ms (then degraded), 4xx yields degraded, and 5xx
(which axios rejects under `validateStatus`) yields down;
`MonitoringEngine.performCheck` maps errors, 4xx and 5xx the same way but
maps every 2xx to up regardless of elapsed time. -/
theorem c3_uptime_status_mapping :
    (∀ msg elapsed,
        (MonitoringService.checkUptime (.netError msg) elapsed).status = .down)
    ∧ (∀ code elapsed, 200 ≤ code → code < 300 →
        (MonitoringService.checkUptime (.response code) elapsed).status
          = (if elapsed > 5000 then Status.degraded else .up))
    ∧ (∀ code elapsed, 400 ≤ code → code < 500 →
        (MonitoringService.checkUptime (.response code) elapsed).status = .degraded)
    ∧ (∀ code elapsed, 500 ≤ code →
        (MonitoringService.checkUptime (.response code) elapsed).status = .down)
    ∧ (∀ wid msg elapsed,
        (MonitoringEngine.performCheck wid (.netError msg) elapsed).status = .down)
    ∧ (∀ wid code elapsed, 500 ≤ code →
        (MonitoringEngine.performCheck wid (.response code) elapsed).status = .down)
    ∧ (∀ wid code elapsed, 400 ≤ code → code < 500 →
        (MonitoringEngine.performCheck wid (.response code) elapsed).status = .degraded)
    ∧ (∀ wid code elapsed, 200 ≤ code → code < 300 →
        (MonitoringEngine.performCheck wid (.response code) elapsed).status = .up) := by
  refine ⟨fun _ _ => rfl, ?_, ?_, ?_, fun _ _ _ => rfl, ?_, ?_, ?_⟩
  · intro code elapsed h1 h2
    unfold MonitoringService.checkUptime
    dsimp only
    split_ifs <;> first | rfl | omega
  · intro code elapsed h1 h2
    unfold MonitoringService.checkUptime
    dsimp only
    split_ifs <;> first | rfl | omega
  · intro code elapsed h1
    unfold MonitoringService.checkUptime
    dsimp only
    split_ifs <;> first | rfl | omega
  · intro wid code elapsed h1
    unfold MonitoringEngine.performCheck
    dsimp only
    split_ifs <;> first | rfl | omega
  · intro wid code elapsed h1 h2
    unfold MonitoringEngine.performCheck
    dsimp only
    split_ifs <;> first | rfl | omega
  · intro wid code elapsed h1 h2
    unfold MonitoringEngine.performCheck
    dsimp only
    split_ifs <;> first | rfl | omega

/-- Claim C3 (witness): the mapping at concrete inputs — a slow HTTP 200, an
HTTP 404 and an HTTP 503 through `MonitoringService.checkUptime`. -/
theorem c3_uptime_status_mapping_witness :
    (200 : Nat) ≤ 200 ∧ (200 : Nat) < 300
    ∧ (MonitoringService.checkUptime (.response 200) 6000).status
        = (if (6000 : Nat) > 5000 then Status.degraded else .up)
    ∧ (MonitoringService.checkUptime (.response 404) 50).status = .degraded
    ∧ (MonitoringService.checkUptime (.response 503) 50).status = .down :=
  ⟨by decide, by decide,
    c3_uptime_status_mapping.2.1 200 6000 (by decide) (by decide),
    c3_uptime_status_mapping.2.2.1 404 50 (by decide) (by decide),
    c3_uptime_status_mapping.2.2.2.1 503 50 (by decide)⟩

/-! ## C6: the alert rules -/

/-- An engine result with status up: HTTP 200 after 42 ms. -/
def engineUpResult : MonitoringEngine.MonitorResult :=
  { websiteId := 2, status := .up, responseTime := 42, statusCode := some 200
    errorMessage := none, performanceScore := some 100 }

/-- An engine result with status up but a 16000 ms response time (over the
claimed 15000 ms performance ceiling). -/
def engineUpSlowResult : MonitoringEngine.MonitorResult :=
  { websiteId := 1, status := .up, responseTime := 16000, statusCode := some 200
    errorMessage := none, performanceScore := some 30 }

/-- Claim C6 (counterexample): `MonitoringEngine.checkAlerts` returns
immediately when the status is up, so for an up result with a 16000 ms
response time no alert at all is created — the claim requires a performance
alert to fire regardless of status. -/
theorem c6_counterexample_engine_up_slow :
    MonitoringEngine.checkAlerts ["email"] [] engineUpSlowResult 0 = []
    ∧ engineUpSlowResult.responseTime > 15000
    ∧ alertCount (MonitoringEngine.checkAlerts ["email"] [] engineUpSlowResult 0)
        1 "performance" = 0 := by
  refine ⟨rfl, by decide, rfl⟩

/-- Claim C6 (amended): `MonitoringService.checkAlerts` evaluates the three
rules independently and exactly as claimed — status_change iff down or
degraded above 10000 ms, ssl_expiry iff TLS info present with at most 30
days left, performance iff above 15000 ms regardless of status;
`MonitoringEngine.checkAlerts`, however, skips evaluation entirely whenever
the status is up, so no rule fires there regardless of response time. -/
theorem c6_alert_rules :
    (∀ r : MonitoringService.MonitorResult,
        "status_change" ∈ MonitoringService.checkAlertTypes r
          ↔ (r.status = .down ∨ (r.status = .degraded ∧ r.responseTime > 10000)))
    ∧ (∀ r : MonitoringService.MonitorResult,
        "ssl_expiry" ∈ MonitoringService.checkAlertTypes r
          ↔ ∃ s, r.sslInfo = some s ∧ s.daysUntilExpiry ≤ 30)
    ∧ (∀ r : MonitoringService.MonitorResult,
        "performance" ∈ MonitoringService.checkAlertTypes r
          ↔ r.responseTime > 15000)
    ∧ (∀ (cfgs : List String) (h : AlertHistory)
        (r : MonitoringEngine.MonitorResult) (now : Int), r.status = .up →
        MonitoringEngine.checkAlerts cfgs h r now = h) := by
  refine ⟨?_, ?_, ?_, ?_⟩
  · intro r
    unfold MonitoringService.checkAlertTypes
    rcases r.sslInfo with _ | s <;> split_ifs <;> simp_all
  · intro r
    unfold MonitoringService.checkAlertTypes
    rcases hs : r.sslInfo with _ | s <;> split_ifs <;> simp_all
  · intro r
    unfold MonitoringService.checkAlertTypes
    rcases r.sslInfo with _ | s <;> split_ifs <;> simp_all
  · intro cfgs h r now hup
    unfold MonitoringEngine.checkAlerts
    rw [if_pos hup]

/-- Claim C6 (witness): the engine's early return at a concrete up result,
and the service rules at concrete results. -/
theorem c6_alert_rules_witness :
    MonitoringEngine.checkAlerts ["sms"] [] engineUpResult 5 = [] :=
  c6_alert_rules.2.2.2 ["sms"] [] engineUpResult 5 rfl

/-! ## C1: alert suppression within the 15-minute window -/

/-- An engine result with status down (a caught connection failure). -/
def engineDownResult (w : Nat) : MonitoringEngine.MonitorResult :=
  { websiteId := w, status := .down, responseTime := 0, statusCode := none
    errorMessage := some "Connection failed", performanceScore := none }

/-- A merged MonitoringService result with status down and no TLS or
performance data. -/
def serviceDownResult : MonitoringService.MonitorResult :=
  MonitoringService.performWebsiteCheck 1 0 none none none

/-- Claim C1 (counterexample): `MonitoringService.triggerAlert` inserts into
`alert_history` unconditionally — two down ticks for the same target 5
minutes apart (inside the 15-minute window) create TWO status_change
AlertEvents, where the claim requires exactly one. -/
theorem c1_counterexample_service_no_suppression :
    alertCount
        (MonitoringService.checkAlerts
          (MonitoringService.checkAlerts [] 1 serviceDownResult 0)
          1 serviceDownResult 300000)
        1 "status_change" = 2
    ∧ ((2 : Nat) ≠ 1)
    ∧ ((300000 : Int) - 0 < suppressionWindowMs) := by
  refine ⟨by decide, by decide, by decide⟩

/-- Claim C1 (amended): `MonitoringEngine.checkAlerts` enforces the 15-minute
suppression per (website, alert-config type): from an empty history, a down
tick creates one AlertEvent, a second down tick inside the window creates
none, and a third down tick after the window has elapsed creates a second
one.  `MonitoringService.checkAlerts`/`triggerAlert` performs no suppression
check, so the invariant does not hold there. -/
theorem c1_engine_suppression_scenario (w : Nat) (ty : String) (t0 t1 t2 : Int)
    (h01 : t0 ≤ t1) (hin : t1 - t0 < suppressionWindowMs)
    (hout : suppressionWindowMs ≤ t2 - t0) :
    alertCount (MonitoringEngine.checkAlerts [ty] [] (engineDownResult w) t0)
        w ty = 1
    ∧ alertCount
        (MonitoringEngine.checkAlerts [ty]
          (MonitoringEngine.checkAlerts [ty] [] (engineDownResult w) t0)
          (engineDownResult w) t1)
        w ty = 1
    ∧ alertCount
        (MonitoringEngine.checkAlerts [ty]
          (MonitoringEngine.checkAlerts [ty]
            (MonitoringEngine.checkAlerts [ty] [] (engineDownResult w) t0)
            (engineDownResult w) t1)
          (engineDownResult w) t2)
        w ty = 2 := by
  have hin' : t1 - t0 < 900000 := hin
  have hout' : (900000 : Int) ≤ t2 - t0 := hout
  have e0 : MonitoringEngine.checkAlerts [ty] [] (engineDownResult w) t0
      = [(w, ty, t0)] := by
    unfold MonitoringEngine.checkAlerts
    rw [if_neg (by simp [engineDownResult])]
    simp [MonitoringEngine.hasRecentAlert, engineDownResult]
  have hr1 : MonitoringEngine.hasRecentAlert [(w, ty, t0)] w ty t1 = true := by
    unfold MonitoringEngine.hasRecentAlert suppressionWindowMs
    simp only [List.any_cons, List.any_nil, Bool.or_false]
    rw [decide_eq_true_eq]
    refine ⟨by simp, by simp, by omega⟩
  have e1 : MonitoringEngine.checkAlerts [ty] [(w, ty, t0)] (engineDownResult w) t1
      = [(w, ty, t0)] := by
    unfold MonitoringEngine.checkAlerts
    rw [if_neg (by simp [engineDownResult])]
    simp [engineDownResult, hr1]
  have hr2 : MonitoringEngine.hasRecentAlert [(w, ty, t0)] w ty t2 = false := by
    unfold MonitoringEngine.hasRecentAlert suppressionWindowMs
    simp only [List.any_cons, List.any_nil, Bool.or_false]
    rw [decide_eq_false_iff_not]
    rintro ⟨-, -, h⟩
    omega
  have e2 : MonitoringEngine.checkAlerts [ty] [(w, ty, t0)] (engineDownResult w) t2
      = [(w, ty, t0), (w, ty, t2)] := by
    unfold MonitoringEngine.checkAlerts
    rw [if_neg (by simp [engineDownResult])]
    simp [engineDownResult, hr2]
  rw [e0, e1, e2]
  refine ⟨?_, ?_, ?_⟩ <;> simp [alertCount, List.countP_cons, List.countP_nil]

/-- Claim C1 (witness): the suppression scenario at target 1, alert type
"email", ticks at 0 ms, 300000 ms (5 min) and 900000 ms (15 min). -/
theorem c1_engine_suppression_scenario_witness :
    ((0 : Int) ≤ 300000)
    ∧ ((300000 : Int) - 0 < suppressionWindowMs)
    ∧ (suppressionWindowMs ≤ (900000 : Int) - 0)
    ∧ alertCount
        (MonitoringEngine.checkAlerts ["email"]
          (MonitoringEngine.checkAlerts ["email"]
            (MonitoringEngine.checkAlerts ["email"] [] (engineDownResult 1) 0)
            (engineDownResult 1) 300000)
          (engineDownResult 1) 900000)
        1 "email" = 2 :=
  ⟨by decide, by decide, by decide,
    (c1_engine_suppression_scenario 1 "email" 0 300000 900000
      (by decide) (by decide) (by decide)).2.2⟩

/-! ## C5: re-arming always waits the configured interval -/

/-- The first tick of an engine trace starts at the trace's start time. -/
lemma runTicks_head_start (start : Int) (I : Nat) (ds : List Nat) :
    ∀ p ∈ (MonitoringEngine.runTicks start I ds).head?, p.1 = start := by
  cases ds <;> simp [MonitoringEngine.runTicks]

/-- Claim C5 (counterexample): `MonitoringService.startWebsiteMonitoring`
schedules with `setInterval` of `Math.round(check_interval / 60)` minutes —
for a target configured with interval 140 s (and any timeout below it, e.g.
30 s), a tick starting and completing at time 0 is followed by a next start
at 120000 ms, earlier than the claimed 140 s. -/
theorem c5_counterexample_service_rounded_interval :
    MonitoringService.nextCheckStart 0 140 = 120000
    ∧ ((120000 : Int) < 140 * 1000)
    ∧ MonitoringService.intervalMs 140 < 140 * 1000 := by
  refine ⟨by decide, by decide, by decide⟩

/-- Claim C5 (amended): under a deterministic fake clock,
`MonitoringEngine.checkWebsite` re-arms with `setTimeout` of exactly the
configured interval after each tick completes, so every next start is the
previous completion plus `I` seconds (hence never earlier);
`MonitoringService.startWebsiteMonitoring` instead uses `setInterval` with a
period of `Math.round(I / 60)` minutes measured from the tick's start, which
honours `I` only when `I` is a whole positive number of minutes. -/
theorem c5_engine_rearm_waits_interval :
    (∀ (start : Int) (I : Nat) (ds : List Nat),
        List.Chain' (fun a b => b.1 = a.2 + (I : Int) * 1000)
          (MonitoringEngine.runTicks start I ds))
    ∧ (∀ s : Nat, s % 60 = 0 → s ≠ 0 →
        MonitoringService.intervalMs s = s * 1000) := by
  constructor
  · intro start I ds
    induction ds generalizing start with
    | nil => simp [MonitoringEngine.runTicks]
    | cons d ds ih =>
        rw [MonitoringEngine.runTicks]
        refine List.chain'_cons'.2 ⟨?_, ih _⟩
        intro p hp
        have h1 := runTicks_head_start _ I ds p hp
        rw [h1, MonitoringEngine.nextCheckStart]
  · intro s h0 hne
    unfold MonitoringService.intervalMs MonitoringService.checkIntervalMinutes
    dsimp only
    rw [if_neg hne]
    omega

/-- Claim C5 (witness): the service conjunct at the whole-minute interval
300 s, and the engine trace property at a concrete trace. -/
theorem c5_engine_rearm_waits_interval_witness :
    ((300 : Nat) % 60 = 0) ∧ ((300 : Nat) ≠ 0)
    ∧ MonitoringService.intervalMs 300 = 300 * 1000 :=
  ⟨by decide, by decide,
    c5_engine_rearm_waits_interval.2 300 (by decide) (by decide)⟩

/-! ## C8: at most one active timer per target id -/

/-- The refresh-race schedule: target 1 is registered and its first tick
completes, arming handle 0; handle 0 fires and starts a tick; while that
tick is in flight a registry refresh re-registers target 1 — `clearTimeout`
on the map-held handle 0 is a no-op because it has already fired — and
starts a second tick; both ticks then complete and each arms its own fresh
timer. -/
def raceEvents : List EngineSched.Event :=
  [.register 1, .complete 1, .fire 0, .register 1, .complete 1, .complete 1]

/-- Claim C8 (counterexample): after the refresh-race schedule target 1 has
TWO live self-re-arming timers, so re-registration was additive — the
at-most-one-active-timer invariant is false of the program. -/
theorem c8_counterexample_refresh_race :
    EngineSched.activeTimerCount
        (EngineSched.run EngineSched.initState raceEvents) 1 = 2
    ∧ ¬ ((2 : Nat) ≤ 1)
    ∧ EngineSched.registersFor 1 raceEvents = 2 := by
  refine ⟨by decide, by decide, by decide⟩

/-- A register event can only lower the target's live-timer count, so it adds
at most one chain for the registered target and none for any other. -/
lemma chains_step_register (s : EngineSched.State) (w₀ w : Nat) :
    EngineSched.chains (EngineSched.step s (.register w₀)) w
      ≤ EngineSched.chains s w + (if w = w₀ then 1 else 0) := by
  unfold EngineSched.chains EngineSched.activeTimerCount EngineSched.step
  dsimp only
  have hcount : (w₀ :: s.inFlight).count w
      = s.inFlight.count w + (if w = w₀ then 1 else 0) := by
    by_cases h : w = w₀ <;> simp [List.count_cons, h, eq_comm]
  cases hlk : EngineSched.lookupTimer s.timerOf w₀ with
  | none =>
      dsimp only
      omega
  | some t =>
      dsimp only
      have hle := (List.filter_sublist (p := fun e => decide (e.1 ≠ t))
        s.liveTimers).countP_le (fun e => decide (e.2 = w))
      omega

/-- Removing every element with handle `t` drops at least one element
satisfying `p` when some element with handle `t` satisfies `p`. -/
lemma countP_filter_handle_lt {l : List (Nat × Nat)} {t w : Nat}
    (e : Nat × Nat) (he : e ∈ l) (het : e.1 = t) (hew : e.2 = w) :
    (l.filter fun x => x.1 ≠ t).countP (fun x => decide (x.2 = w)) + 1
      ≤ l.countP fun x => decide (x.2 = w) := by
  have hperm := List.filter_append_perm (fun x => decide (x.1 ≠ t)) l
  have hsum := hperm.countP_eq (fun x => decide (x.2 = w))
  rw [List.countP_append] at hsum
  have hpos : 0 < (l.filter fun x => !(decide (x.1 ≠ t))).countP
      (fun x => decide (x.2 = w)) := by
    rw [List.countP_pos_iff]
    exact ⟨e, List.mem_filter.2 ⟨he, by simp [het]⟩, by simp [hew]⟩
  omega

/-- A fire event moves one chain from the timer phase to the in-flight
phase: it never increases any target's chain count. -/
lemma chains_step_fire (s : EngineSched.State) (t w : Nat) :
    EngineSched.chains (EngineSched.step s (.fire t)) w
      ≤ EngineSched.chains s w := by
  unfold EngineSched.chains EngineSched.activeTimerCount EngineSched.step
  dsimp only
  cases hf : s.liveTimers.find? (fun e => decide (e.1 = t)) with
  | none =>
      dsimp only
      omega
  | some e =>
      dsimp only
      have he : e ∈ s.liveTimers := List.mem_of_find?_eq_some hf
      have het : e.1 = t := by simpa using List.find?_some hf
      by_cases hw : e.2 = w
      · have key := countP_filter_handle_lt e he het hw
        have hc : (e.2 :: s.inFlight).count w = s.inFlight.count w + 1 := by
          simp [List.count_cons, hw]
        omega
      · have hc : (e.2 :: s.inFlight).count w = s.inFlight.count w := by
          simp [List.count_cons, hw]
        have hle := (List.filter_sublist (p := fun e2 => decide (e2.1 ≠ t))
          s.liveTimers).countP_le (fun e2 => decide (e2.2 = w))
        omega

/-- A complete event moves one chain from the in-flight phase to the timer
phase: it never increases any target's chain count. -/
lemma chains_step_complete (s : EngineSched.State) (w₀ w : Nat) :
    EngineSched.chains (EngineSched.step s (.complete w₀)) w
      ≤ EngineSched.chains s w := by
  unfold EngineSched.chains EngineSched.activeTimerCount EngineSched.step
  dsimp only
  by_cases hin : w₀ ∈ s.inFlight
  · rw [if_pos hin]
    dsimp only
    by_cases hw : w = w₀
    · subst hw
      have h1 : (s.inFlight.erase w).count w = s.inFlight.count w - 1 :=
        List.count_erase_self w s.inFlight
      have h2 : s.inFlight.count w ≠ 0 := by
        intro h0
        exact (List.count_eq_zero.mp h0) hin
      have h3 : ((s.nextTimerId, w) :: s.liveTimers).countP
          (fun e => decide (e.2 = w))
          = s.liveTimers.countP (fun e => decide (e.2 = w)) + 1 := by
        simp [List.countP_cons]
      omega
    · have h1 : (s.inFlight.erase w₀).count w = s.inFlight.count w :=
        List.count_erase_of_ne hw s.inFlight
      have h3 : ((s.nextTimerId, w₀) :: s.liveTimers).countP
          (fun e => decide (e.2 = w))
          = s.liveTimers.countP (fun e => decide (e.2 = w)) := by
        simp [List.countP_cons, Ne.symm hw]
      omega
  · rw [if_neg hin]

/-- Along any schedule, each target's chain count stays within its initial
chain count plus its remaining registrations. -/
lemma run_chains_le (evs : List EngineSched.Event) :
    ∀ s : EngineSched.State,
      (∀ v, EngineSched.chains s v + EngineSched.registersFor v evs ≤ 1) →
      ∀ v, EngineSched.chains (EngineSched.run s evs) v ≤ 1 := by
  induction evs with
  | nil =>
      intro s h v
      have := h v
      simp only [EngineSched.registersFor, List.count_nil] at this
      simpa [EngineSched.run] using this
  | cons ev evs ih =>
      intro s h v
      have hstep : ∀ u, EngineSched.chains (EngineSched.step s ev) u
          + EngineSched.registersFor u evs ≤ 1 := by
        intro u
        have hu := h u
        cases ev with
        | register w₀ =>
            have h1 := chains_step_register s w₀ u
            have h2 : EngineSched.registersFor u (.register w₀ :: evs)
                = EngineSched.registersFor u evs + (if u = w₀ then 1 else 0) := by
              by_cases huw : u = w₀ <;>
                simp [EngineSched.registersFor, List.count_cons, huw, eq_comm]
            rw [h2] at hu
            omega
        | fire t =>
            have h1 := chains_step_fire s t u
            have h2 : EngineSched.registersFor u (.fire t :: evs)
                = EngineSched.registersFor u evs := by
              simp [EngineSched.registersFor, List.count_cons]
            rw [h2] at hu
            omega
        | complete w₀ =>
            have h1 := chains_step_complete s w₀ u
            have h2 : EngineSched.registersFor u (.complete w₀ :: evs)
                = EngineSched.registersFor u evs := by
              simp [EngineSched.registersFor, List.count_cons]
            rw [h2] at hu
            omega
      have hrun : EngineSched.run s (ev :: evs)
          = EngineSched.run (EngineSched.step s ev) evs := by
        simp [EngineSched.run]
      rw [hrun]
      exact ih (EngineSched.step s ev) hstep v

/-- Claim C8 (amended): at the instant of a re-registration,
`scheduleMonitoring` cancels the pending timer its map holds for the id (no
live timer with that handle survives the `clearTimeout`), and along any
schedule that registers each target id at most once, each id has at most one
active timer at every instant.  The unrestricted invariant fails (see the
refresh-race counterexample): the clear is a no-op on an already-fired
handle and the fresh timer is installed only when the tick completes, so a
registry refresh racing an in-flight tick is additive. -/
theorem c8_cancel_then_start_single_registration :
    (∀ (s : EngineSched.State) (w t : Nat),
        EngineSched.lookupTimer s.timerOf w = some t →
        ((EngineSched.step s (.register w)).liveTimers.countP
          fun e => decide (e.1 = t)) = 0)
    ∧ (∀ evs : List EngineSched.Event,
        (∀ w, EngineSched.registersFor w evs ≤ 1) →
        ∀ w, EngineSched.activeTimerCount
            (EngineSched.run EngineSched.initState evs) w ≤ 1) := by
  constructor
  · intro s w t h
    unfold EngineSched.step
    dsimp only
    rw [h]
    dsimp only
    rw [List.countP_eq_zero]
    intro e he
    have h2 := (List.mem_filter.1 he).2
    simpa using h2
  · intro evs h w
    have h0 : ∀ v, EngineSched.chains EngineSched.initState v
        + EngineSched.registersFor v evs ≤ 1 := by
      intro v
      have hz : EngineSched.chains EngineSched.initState v = 0 := by
        simp [EngineSched.chains, EngineSched.activeTimerCount,
          EngineSched.initState]
      rw [hz, Nat.zero_add]
      exact h v
    have hch := run_chains_le evs EngineSched.initState h0 w
    unfold EngineSched.chains at hch
    omega

/-- Claim C8 (witness): the cancel conjunct at a concrete state whose map
holds the still-pending handle 0, and the single-registration invariant at a
one-event schedule. -/
theorem c8_cancel_then_start_single_registration_witness :
    EngineSched.lookupTimer [(1, 0)] 1 = some 0
    ∧ ((EngineSched.step
          { timerOf := [(1, 0)], liveTimers := [(0, 1)], inFlight := []
            nextTimerId := 1 }
          (.register 1)).liveTimers.countP fun e => decide (e.1 = 0)) = 0
    ∧ EngineSched.activeTimerCount
        (EngineSched.run EngineSched.initState [.register 1]) 1 ≤ 1 :=
  ⟨by decide,
    c8_cancel_then_start_single_registration.1
      { timerOf := [(1, 0)], liveTimers := [(0, 1)], inFlight := []
        nextTimerId := 1 } 1 0 (by decide),
    c8_cancel_then_start_single_registration.2 [.register 1]
      (fun w => le_trans (List.count_le_length _ _) (by decide)) 1⟩

end WebsiteMonitor
